import Mathlib

/-!
Shallow embedding of `sanic_cookies` (files `sanic_cookies/models.py` and
`sanic_cookies/interfaces/asyncpg.py`) and proofs about it.

The embedding keeps the names of the source where Lean allows it:
`SessionDict` with its fields `store`, `sid`, `warn_lock`, `is_modified`;
the operations `__getitem__`/`__setitem__`/`__delitem__`/`__getattr__`/
`reset`/`is_locked`/`__aenter__`/`__aexit__` become `getitem`/`setitem`/
`delitem`/`getattrDyn`/`reset`/`is_locked`/`aenter`/`aexitRun`; the
module-level `LockKeeper` with its `acquired_locks` map becomes the
`LockSys` transition system.  Python dicts are modelled as association
lists (`List (String × v)`); insertion order carries no meaning in any
property proved here.  Warnings raised via `warnings.warn` are modelled
as values of type `Warn` returned alongside results.  Exceptions are
modelled with `Option`/explicit outcome types.
-/

namespace SanicCookies

/-- Warnings emitted by `SessionDict` (`models.py` lines 9 and 22):
`unlockedWarning` is `UNLOCKED_WARNING_MSG`, `mixWarning` is
`UNLOCKED_LOCKED_ACCESS_MIX_MSG`. -/
inductive Warn where
  | unlockedWarning
  | mixWarning
deriving DecidableEq, Repr

/-- Python `str.lower` as used for key normalisation, modelled
character-wise (the payload keys of interest are ASCII). -/
def lowerKey (s : String) : String := ⟨s.data.map Char.toLower⟩

/-- Python dict lookup `store[k]` (`none` models `KeyError`/absence). -/
def storeGet (s : List (String × α)) (k : String) : Option α :=
  match s with
  | [] => none
  | p :: t => if p.1 = k then some p.2 else storeGet t k

/-- Python dict assignment `store[k] = v`, modelled on association lists:
the binding for `k` is replaced (position of the binding carries no
meaning for our claims). -/
def storeSet (s : List (String × α)) (k : String) (v : α) : List (String × α) :=
  (k, v) :: s.filter (fun p => p.1 ≠ k)

/-- Python dict deletion `del store[k]` after a successful containment
check. -/
def storeDel (s : List (String × α)) (k : String) : List (String × α) :=
  s.filter (fun p => p.1 ≠ k)

theorem storeGet_storeSet_self (s : List (String × α)) (k : String) (v : α) :
    storeGet (storeSet s k v) k = some v := by
  simp [storeSet, storeGet]

theorem storeGet_filter_self (s : List (String × α)) (k : String) :
    storeGet (s.filter (fun p => p.1 ≠ k)) k = none := by
  induction s with
  | nil => rfl
  | cons p t ih =>
    rw [List.filter_cons]
    by_cases h : p.1 = k
    · simpa [h] using ih
    · simpa [h, storeGet] using ih

theorem storeGet_storeDel_self (s : List (String × α)) (k : String) :
    storeGet (storeDel s k) k = none :=
  storeGet_filter_self s k

/-- The in-memory session view, `SessionDict` in `models.py` (the
`session` and `request` attributes are conduits to the backend and are
modelled as explicit effects where needed). -/
structure SessionDict (α : Type) where
  store : List (String × α)
  sid : String
  warn_lock : Bool
  is_modified : Bool
deriving DecidableEq, Repr

/-- The global `lock_keeper.acquired_locks` map as the session-dict
operations see it: which sids have a registered lock, and whether that
lock is currently locked. -/
abbrev LockMap := List (String × Bool)

/-- `SessionDict.is_locked` (`models.py` line 137): true iff the sid has
an entry in `acquired_locks` and that lock is locked. -/
def is_locked (locks : LockMap) (d : SessionDict α) : Bool :=
  match storeGet locks d.sid with
  | some l => l
  | none => false

/-- `SessionDict._warn_if_not_locked` (`models.py` line 82): emit
`UNLOCKED_WARNING_MSG` when the view is not locked and `warn_lock` is
set. -/
def warn_if_not_locked (locks : LockMap) (d : SessionDict α) : List Warn :=
  if is_locked locks d ≠ true ∧ d.warn_lock = true then [Warn.unlockedWarning] else []

/-- `SessionDict.__getitem__` (`models.py` line 86): warn if unlocked,
then read `store[key.lower()]` (a missing key raises `KeyError`,
modelled as `none`). -/
def getitem (locks : LockMap) (d : SessionDict α) (key : String) :
    List Warn × Option α :=
  (warn_if_not_locked locks d, storeGet d.store (lowerKey key))

/-- `SessionDict.__setitem__` (`models.py` line 90): warn if unlocked,
set `is_modified`, write `store[key.lower()] = value`. -/
def setitem (locks : LockMap) (d : SessionDict α) (key : String) (v : α) :
    List Warn × SessionDict α :=
  (warn_if_not_locked locks d,
   { d with is_modified := true, store := storeSet d.store (lowerKey key) v })

/-- `SessionDict.__delitem__` (`models.py` line 95): warn if unlocked,
set `is_modified`, then `del store[key.lower()]`.  `is_modified` is set
before the deletion, so it is set even when the key is absent and the
deletion raises `KeyError`; the Boolean in the result records whether
the deletion succeeded. -/
def delitem (locks : LockMap) (d : SessionDict α) (key : String) :
    List Warn × SessionDict α × Bool :=
  let k := (lowerKey key)
  let present := (storeGet d.store k).isSome
  (warn_if_not_locked locks d,
   { d with is_modified := true,
            store := if present then storeDel d.store k else d.store },
   present)

/-- The five method names special-cased by `SessionDict.__getattr__`
(`models.py` lines 113-119). -/
def mutatingAttrs : List String := ["pop", "popitem", "update", "clear", "setdefault"]

/-- The body of the method `SessionDict.__getattr__` (`models.py` line
112), taken on its own: for the five special-cased names it would warn
if unlocked, set `is_modified` at lookup time and return the bound
method (`some` of the updated state); any other name raises
`AttributeError` (`none`), leaving the state unchanged.  Python invokes
`__getattr__` only for names that normal attribute lookup fails to
find.  `SessionDict` subclasses `collections.abc.MutableMapping`, whose
concrete mixin methods cover all five special-cased names, so the first
branch of this method is unreachable in the program: attribute lookup
is modelled by `getattrFull` below, which reaches this function only
for names outside the normal attribute namespace. -/
def getattrDyn (locks : LockMap) (d : SessionDict α) (key : String) :
    List Warn × Option (SessionDict α) :=
  if key ∈ mutatingAttrs then
    (warn_if_not_locked locks d, some { d with is_modified := true })
  else
    ([], none)

/-- Names that normal Python attribute lookup finds on a `SessionDict`
instance: its instance attributes (`models.py` line 74), the methods
defined on the class, and the concrete mixin methods inherited from
`collections.abc.MutableMapping` — which include all five names
special-cased by `__getattr__`.  Dunder and private helper names play
no role in the claims and are omitted; any superset containing the five
mixin names yields the same theorems. -/
def normalAttrs : List String :=
  ["store", "sid", "session", "warn_lock", "is_modified", "request",
   "pop", "popitem", "update", "clear", "setdefault",
   "get", "keys", "items", "values", "reset", "is_locked"]

theorem mutatingAttrs_subset_normal {n : String} (h : n ∈ mutatingAttrs) :
    n ∈ normalAttrs := by
  simp only [mutatingAttrs, List.mem_cons, List.not_mem_nil, or_false] at h
  rcases h with h | h | h | h | h <;> subst h <;> decide

/-- Attribute lookup `getattr(session_dict, key)` as Python performs
it: normal lookup through the instance and the class (including the
`MutableMapping` mixins) succeeds without side effects — in particular,
looking up `pop`/`popitem`/`update`/`clear`/`setdefault` returns the
mixin method and does not touch `is_modified`; only a name that normal
lookup misses is routed to `__getattr__` (`getattrDyn`), whose
mutating-names branch is therefore dead and which raises
`AttributeError` for every name that actually reaches it. -/
def getattrFull (locks : LockMap) (d : SessionDict α) (key : String) :
    List Warn × Option (SessionDict α) :=
  if key ∈ normalAttrs then
    ([], some d)
  else
    getattrDyn locks d key

/-- `SessionDict.reset` (`models.py` line 131): when the store is
non-empty, warn if unlocked, clear it and set `is_modified`; otherwise a
no-op. -/
def reset (locks : LockMap) (d : SessionDict α) : List Warn × SessionDict α :=
  if d.store.isEmpty then
    ([], d)
  else
    (warn_if_not_locked locks d, { d with store := [], is_modified := true })

/-- `SessionDict.__aenter__` (`models.py` line 143) after the lock has
been granted, as a function of the backend fetch result (`none` models a
`None`/absent fetch).  It emits `UNLOCKED_LOCKED_ACCESS_MIX_MSG` when
`is_modified` is already set, and replaces `store` wholesale with the
fetch result, where the Python `or` turns a `None` — and the
already-empty dict — into the empty dict.  `is_modified` is NOT reset. -/
def aenter (d : SessionDict α) (fetched : Option (List (String × α))) :
    List Warn × SessionDict α :=
  ((if d.is_modified = true then [Warn.mixWarning] else []),
   { d with store := fetched.getD [] })

/-- Actions a guarded-scope exit performs against the outside world, in
order: a backend write-back (`session._post_sess`, which persists the
payload for the sid) and the lock release (`lock_keeper.release`). -/
inductive Action (α : Type) where
  | storeA (sid : String) (payload : List (String × α))
  | releaseA (sid : String)
deriving DecidableEq, Repr

/-- `SessionDict.__aexit__` (`models.py` line 153) as a trace of
`Action`s plus the resulting state.  `storeOk` tells whether the backend
write-back succeeds; when it raises (`storeOk = false`) the rest of the
method body — including `lock_keeper.release` — is skipped and the
exception propagates (`none`). -/
def aexitRun (d : SessionDict α) (storeOk : Bool) :
    List (Action α) × Option (SessionDict α) :=
  if d.is_modified = true then
    if storeOk then
      ([Action.storeA d.sid d.store, Action.releaseA d.sid],
       some { d with is_modified := false })
    else
      ([Action.storeA d.sid d.store], none)
  else
    ([Action.releaseA d.sid], some d)

/-- Outcome of running `async with session_dict: body` once.  `blocked`:
`lock_keeper.acquire` found an existing registry entry and suspended on
its lock — a lock that `LockKeeper.release` never unlocks (the
`existing_lock.release()` call in `models.py` line 67 is commented out),
so the caller is never granted.  `raised locks n`: an exception
propagated to the caller, with the final `acquired_locks` state and the
number of `lock_keeper.release` calls performed.  `completed locks d n`:
normal completion. -/
inductive ScopeOutcome (α : Type) where
  | blocked
  | raised (locks : LockMap) (releases : Nat)
  | completed (locks : LockMap) (d : SessionDict α) (releases : Nat)
deriving DecidableEq, Repr

/-- One run of a guarded scope `async with d: body`, following
`SessionDict.__aenter__`/`__aexit__` (`models.py` lines 143-158) and
`LockKeeper.acquire`/`release` (lines 55-68) under the Python
async-context-manager protocol: if `__aenter__` raises, `__aexit__` is
not called; if the body raises, `__aexit__` runs and the exception of
the body propagates afterwards; if `__aexit__` raises, the rest of
`__aexit__` is skipped.

`fetchRes = none` models `session._fetch_sess` raising; `some fr` its
returned payload (`fr = none` for a `None` result).  `body` maps the
state after entry to the state at body end plus whether the body raised.
`storeOk = false` models `session._post_sess` raising.

The uncontended path of `LockKeeper.acquire` (create a fresh `Lock`, acquire
it, register it) runs without any suspension point in asyncio, so it is
one atomic step here; the contended path suspends on a lock nothing ever
unlocks, hence `blocked`. -/
def runScope (locks : LockMap) (d : SessionDict α)
    (fetchRes : Option (Option (List (String × α))))
    (body : SessionDict α → SessionDict α × Bool)
    (storeOk : Bool) : ScopeOutcome α :=
  match storeGet locks d.sid with
  | some _ => ScopeOutcome.blocked
  | none =>
    let locks1 : LockMap := (d.sid, true) :: locks
    match fetchRes with
    | none => ScopeOutcome.raised locks1 0
    | some fr =>
      let d1 := (aenter d fr).2
      let r := body d1
      let d2 := r.1
      let bodyRaised := r.2
      if d2.is_modified = true then
        if storeOk then
          let locks2 := locks1.filter (fun p => p.1 ≠ d.sid)
          if bodyRaised then ScopeOutcome.raised locks2 1
          else ScopeOutcome.completed locks2 { d2 with is_modified := false } 1
        else ScopeOutcome.raised locks1 0
      else
        let locks2 := locks1.filter (fun p => p.1 ≠ d.sid)
        if bodyRaised then ScopeOutcome.raised locks2 1
        else ScopeOutcome.completed locks2 d2 1

/-- Phase of one logical task (one concurrent caller of a guarded scope
for some sid). `waiting lid` means suspended in `await
existing_lock.acquire()` on the lock object with identity `lid`. -/
inductive Phase where
  | idle
  | waiting (lid : Nat)
  | crit
  | done
deriving DecidableEq, Repr

/-- A logical task: the sid it works on and its phase. -/
structure Task where
  sid : String
  phase : Phase
deriving DecidableEq, Repr

/-- Global state of the lock layer: all tasks, the
`LockKeeper.acquired_locks` map (sid to lock identity), each lock
locked flag of each lock object, and the number allocated so far.
Lock identities not yet allocated are mapped to `true` so that the
asyncio wake-up rule is stated uniformly. -/
structure LockSys where
  tasks : Nat → Task
  registry : String → Option Nat
  lockedFlag : Nat → Bool
  nextLock : Nat

/-- Pointwise update of a task table. -/
def updTask (f : Nat → Task) (i : Nat) (t : Task) : Nat → Task :=
  fun j => if j = i then t else f j

/-- Pointwise update of the registry map. -/
def updReg (f : String → Option Nat) (k : String) (v : Option Nat) :
    String → Option Nat :=
  fun k2 => if k2 = k then v else f k2

/-- Pointwise update of the lock-object flags. -/
def updFlag (f : Nat → Bool) (i : Nat) (b : Bool) : Nat → Bool :=
  fun j => if j = i then b else f j

theorem updTask_ne (f : Nat → Task) {i j : Nat} (t : Task) (h : j ≠ i) :
    updTask f i t j = f j := by
  simp [updTask, h]

theorem updReg_ne (f : String → Option Nat) {k k2 : String} (v : Option Nat)
    (h : k2 ≠ k) : updReg f k v k2 = f k2 := by
  simp [updReg, h]

theorem updFlag_ne (f : Nat → Bool) {i j : Nat} (b : Bool) (h : j ≠ i) :
    updFlag f i b j = f j := by
  simp [updFlag, h]

/-- Interleaving semantics of `LockKeeper.acquire`/`release`
(`models.py` lines 55-68) driven by the guarded-scope protocol:

* `acquireWait`: `acquired_locks` has a lock for the sid; the caller
  suspends in `await existing_lock.acquire()` on that lock.
* `acquireCreate`: no entry; create a fresh `Lock`, acquire it (the
  uncontended `Lock.acquire` returns without suspending, so this is one
  atomic step), register it, and enter the critical section.
* `wake`: asyncio grants a suspended `Lock.acquire` when the lock
  becomes unlocked.  (`LockKeeper.release` never unlocks a lock — the
  `existing_lock.release()` call is commented out — so this rule is
  provably never enabled.)
* `release`: the critical-section holder runs `LockKeeper.release`,
  which only executes `del self.acquired_locks[sid]`. -/
inductive LockStep : LockSys → LockSys → Prop where
  | acquireWait {s : LockSys} (i lid : Nat) :
      (s.tasks i).phase = Phase.idle →
      s.registry (s.tasks i).sid = some lid →
      LockStep s { s with
        tasks := updTask s.tasks i ⟨(s.tasks i).sid, Phase.waiting lid⟩ }
  | acquireCreate {s : LockSys} (i : Nat) :
      (s.tasks i).phase = Phase.idle →
      s.registry (s.tasks i).sid = none →
      LockStep s
        { tasks := updTask s.tasks i ⟨(s.tasks i).sid, Phase.crit⟩,
          registry := updReg s.registry (s.tasks i).sid (some s.nextLock),
          lockedFlag := updFlag s.lockedFlag s.nextLock true,
          nextLock := s.nextLock + 1 }
  | wake {s : LockSys} (i lid : Nat) :
      (s.tasks i).phase = Phase.waiting lid →
      s.lockedFlag lid = false →
      LockStep s { s with
        tasks := updTask s.tasks i ⟨(s.tasks i).sid, Phase.crit⟩,
        lockedFlag := updFlag s.lockedFlag lid true }
  | release {s : LockSys} (i : Nat) :
      (s.tasks i).phase = Phase.crit →
      LockStep s { s with
        tasks := updTask s.tasks i ⟨(s.tasks i).sid, Phase.done⟩,
        registry := updReg s.registry (s.tasks i).sid none }

/-- An initial state: every task idle, `acquired_locks` empty, no lock
allocated. -/
def LockInit (s : LockSys) : Prop :=
  (∀ i, (s.tasks i).phase = Phase.idle) ∧
  (∀ sid, s.registry sid = none) ∧
  (∀ lid, s.lockedFlag lid = true)

/-- Mutual exclusion: two tasks in their critical section for the same
sid are the same task. -/
def MutexProp (s : LockSys) : Prop :=
  ∀ i j, (s.tasks i).phase = Phase.crit → (s.tasks j).phase = Phase.crit →
    (s.tasks i).sid = (s.tasks j).sid → i = j

/-- Inductive invariant: every lock object is locked, every
critical-section holder has a registry entry for its sid, and mutual
exclusion holds. -/
def LockInv (s : LockSys) : Prop :=
  (∀ lid, s.lockedFlag lid = true) ∧
  (∀ i, (s.tasks i).phase = Phase.crit → (s.registry (s.tasks i).sid).isSome) ∧
  MutexProp s

theorem lockInv_init (s : LockSys) (h : LockInit s) : LockInv s := by
  obtain ⟨hidle, -, hlock⟩ := h
  refine ⟨hlock, fun i hi => ?_, fun i j hi _ _ => ?_⟩
  · rw [hidle i] at hi; cases hi
  · rw [hidle i] at hi; cases hi

theorem lockInv_step {s s2 : LockSys} (h : LockInv s) (hs : LockStep s s2) :
    LockInv s2 := by
  obtain ⟨hlock, hreg, hmux⟩ := h
  cases hs with
  | acquireWait i lid hph hr =>
    refine ⟨hlock, fun j hj => ?_, fun j k hj hk hsid => ?_⟩
    · dsimp only at hj ⊢
      by_cases hji : j = i
      · subst hji; simp [updTask] at hj
      · rw [updTask_ne _ _ hji] at hj
        rw [updTask_ne _ _ hji]
        exact hreg j hj
    · dsimp only at hj hk hsid
      by_cases hji : j = i
      · subst hji; simp [updTask] at hj
      · by_cases hki : k = i
        · subst hki; simp [updTask] at hk
        · rw [updTask_ne _ _ hji] at hj hsid
          rw [updTask_ne _ _ hki] at hk hsid
          exact hmux j k hj hk hsid
  | acquireCreate i hph hr =>
    refine ⟨fun lid => ?_, fun j hj => ?_, fun j k hj hk hsid => ?_⟩
    · dsimp only
      by_cases hl : lid = s.nextLock
      · subst hl; simp [updFlag]
      · rw [updFlag_ne _ _ hl]; exact hlock lid
    · dsimp only at hj ⊢
      by_cases hji : j = i
      · subst hji
        simp [updTask, updReg]
      · rw [updTask_ne _ _ hji] at hj
        rw [updTask_ne _ _ hji]
        by_cases hs2 : (s.tasks j).sid = (s.tasks i).sid
        · exfalso
          have hx := hreg j hj
          rw [hs2, hr] at hx
          cases hx
        · rw [updReg_ne _ _ hs2]
          exact hreg j hj
    · dsimp only at hj hk hsid
      by_cases hji : j = i
      · by_cases hki : k = i
        · rw [hji, hki]
        · exfalso
          subst hji
          rw [updTask_ne _ _ hki] at hk hsid
          simp [updTask] at hsid
          have hx := hreg k hk
          rw [← hsid, hr] at hx
          cases hx
      · by_cases hki : k = i
        · exfalso
          subst hki
          rw [updTask_ne _ _ hji] at hj hsid
          simp [updTask] at hsid
          have hx := hreg j hj
          rw [hsid, hr] at hx
          cases hx
        · rw [updTask_ne _ _ hji] at hj hsid
          rw [updTask_ne _ _ hki] at hk hsid
          exact hmux j k hj hk hsid
  | wake i lid hph hl =>
    exact absurd (hlock lid) (by rw [hl]; exact Bool.false_ne_true)
  | release i hph =>
    refine ⟨hlock, fun j hj => ?_, fun j k hj hk hsid => ?_⟩
    · dsimp only at hj ⊢
      by_cases hji : j = i
      · subst hji; simp [updTask] at hj
      · rw [updTask_ne _ _ hji] at hj
        rw [updTask_ne _ _ hji]
        have hsid : (s.tasks j).sid ≠ (s.tasks i).sid := by
          intro he
          exact hji (hmux j i hj hph he)
        rw [updReg_ne _ _ hsid]
        exact hreg j hj
    · dsimp only at hj hk hsid
      by_cases hji : j = i
      · subst hji; simp [updTask] at hj
      · by_cases hki : k = i
        · subst hki; simp [updTask] at hk
        · rw [updTask_ne _ _ hji] at hj hsid
          rw [updTask_ne _ _ hki] at hk hsid
          exact hmux j k hj hk hsid

theorem lockInv_reach {s s' : LockSys} (h : LockInv s)
    (hr : Relation.ReflTransGen LockStep s s') : LockInv s' := by
  induction hr with
  | refl => exact h
  | tail _ hstep ih => exact lockInv_step ih hstep

/-- One public operation on a `SessionDict` view: unguarded item
get/set/delete, dynamic attribute lookup, `reset`, guarded entry (with
the backend fetch result) and guarded exit (with the write-back
outcome). -/
inductive Op (α : Type) where
  | setOp (k : String) (v : α)
  | delOp (k : String)
  | getOp (k : String)
  | attrOp (name : String)
  | resetOp
  | enterOp (fetched : Option (List (String × α)))
  | exitOp (storeOk : Bool)
deriving DecidableEq, Repr

/-- State transition of one operation (warnings discarded; an operation
that raises leaves the state as the partially executed Python method
left it). -/
def applyOp (d : SessionDict α) : Op α → SessionDict α
  | Op.setOp k v => (setitem [] d k v).2
  | Op.delOp k => (delitem [] d k).2.1
  | Op.getOp _ => d
  | Op.attrOp n =>
    match (getattrFull [] d n).2 with
    | some d2 => d2
    | none => d
  | Op.resetOp => (reset [] d).2
  | Op.enterOp f => (aenter d f).2
  | Op.exitOp ok =>
    match (aexitRun d ok).2 with
    | some d2 => d2
    | none => d

/-- Ghost counter for the invariant of the spec: number of mutations of the
in-memory payload since the last load from the backend (guarded entry)
or the last successful write-back.  A mutation is a payload write: an
item assignment, a successful item deletion, or clearing a non-empty
store. -/
def mutCount (d : SessionDict α) : Op α → Nat → Nat
  | Op.setOp _ _, n => n + 1
  | Op.delOp k, n => if (storeGet d.store (lowerKey k)).isSome then n + 1 else n
  | Op.getOp _, n => n
  | Op.attrOp _, n => n
  | Op.resetOp, n => if d.store.isEmpty then n else n + 1
  | Op.enterOp _, _ => 0
  | Op.exitOp ok, n => if d.is_modified = true ∧ ok = true then 0 else n

/-- Ghost counter for the amended invariant: number of
`is_modified`-signalling operations (item set, item delete attempt —
also a failing one —, non-empty reset) since construction or the last
successful write-back.  Attribute lookup signals nothing (the
`MutableMapping` mixins shadow the five special-cased names, so
`__getattr__` never sets the flag), and a guarded-entry load does not
reset the counter. -/
def sigCount (d : SessionDict α) : Op α → Nat → Nat
  | Op.setOp _ _, n => n + 1
  | Op.delOp _, n => n + 1
  | Op.getOp _, n => n
  | Op.attrOp _, n => n
  | Op.resetOp, n => if d.store.isEmpty then n else n + 1
  | Op.enterOp _, n => n
  | Op.exitOp ok, n => if d.is_modified = true ∧ ok = true then 0 else n

/-- Run a sequence of operations, threading the state and both ghost
counters. -/
def runOps (d : SessionDict α) (m g : Nat) :
    List (Op α) → SessionDict α × Nat × Nat
  | [] => (d, m, g)
  | op :: rest => runOps (applyOp d op) (mutCount d op m) (sigCount d op g) rest

/-- A freshly constructed view (`SessionDict.__init__` with
`initial=None`): empty store, `is_modified = False`. -/
def initDict (sid : String) : SessionDict α :=
  { store := [], sid := sid, warn_lock := true, is_modified := false }

/-- The `sessions` table of the `AsyncPG` backend
(`interfaces/asyncpg.py`): sid to (absolute expiry timestamp, encoded
value).  `created_at` plays no role in `fetch`/`store` and is omitted;
time is an abstract tick count. -/
structure PGTable (ε : Type) where
  rows : List (String × (Nat × ε))
deriving DecidableEq, Repr

/-- `AsyncPG.store` (`asyncpg.py` line 56): a `None` value stores
nothing; otherwise upsert the encoded value with
`expires_at = now + expiry` (the Python computes
`datetime.datetime.utcnow() + datetime.timedelta(seconds=expiry)`). -/
def pgStore (enc : π → ε) (st : PGTable ε) (now : Nat) (sid : String)
    (expiry : Nat) (val : Option π) : PGTable ε :=
  match val with
  | none => st
  | some v => ⟨(sid, (now + expiry, enc v)) :: st.rows.filter (fun p => p.1 ≠ sid)⟩

/-- `AsyncPG.fetch` (`asyncpg.py` line 44): `SELECT val FROM sessions
WHERE sid = $1 AND expires_at > NOW()`; a row whose expiry has passed
(or a missing row) yields `None`, otherwise the decoded value. -/
def pgFetch (dec : ε → π) (st : PGTable ε) (now : Nat) (sid : String) : Option π :=
  match storeGet st.rows sid with
  | some r => if now < r.1 then some (dec r.2) else none
  | none => none

theorem updFlag_true_all {f : Nat → Bool} (h : ∀ l, f l = true) (i : Nat) :
    ∀ l, updFlag f i true l = true := by
  intro l
  by_cases hl : l = i
  · subst hl; simp [updFlag]
  · rw [updFlag_ne _ _ hl]; exact h l

/-- Persistence lemma: while every lock object is locked, a task
suspended in `await existing_lock.acquire()` stays suspended forever —
nothing ever unlocks a lock, so the wake rule never fires. -/
theorem waiting_persists {s s2 : LockSys} (i lid : Nat)
    (hr : Relation.ReflTransGen LockStep s s2)
    (h : (∀ l, s.lockedFlag l = true) ∧ (s.tasks i).phase = Phase.waiting lid) :
    (∀ l, s2.lockedFlag l = true) ∧ (s2.tasks i).phase = Phase.waiting lid := by
  induction hr with
  | refl => exact h
  | tail hsteps hstep ih =>
    obtain ⟨hlock, hw⟩ := ih
    cases hstep with
    | acquireWait j ljd hph hr2 =>
      refine ⟨hlock, ?_⟩
      dsimp only
      by_cases hij : i = j
      · subst hij; rw [hw] at hph; cases hph
      · rw [updTask_ne _ _ hij]; exact hw
    | acquireCreate j hph hr2 =>
      constructor
      · exact updFlag_true_all hlock _
      · dsimp only
        by_cases hij : i = j
        · subst hij; rw [hw] at hph; cases hph
        · rw [updTask_ne _ _ hij]; exact hw
    | wake j ljd hph hflag =>
      exact absurd (hlock ljd) (by rw [hflag]; exact Bool.false_ne_true)
    | release j hph =>
      refine ⟨hlock, ?_⟩
      dsimp only
      by_cases hij : i = j
      · subst hij; rw [hw] at hph; cases hph
      · rw [updTask_ne _ _ hij]; exact hw

theorem runOps_sig_step (d : SessionDict α) (op : Op α) (g : Nat)
    (h : d.is_modified = true → 0 < g) :
    (applyOp d op).is_modified = true → 0 < sigCount d op g := by
  cases op with
  | setOp k v => intro _; simp [sigCount]
  | delOp k => intro _; simp [sigCount]
  | getOp k =>
    intro hm
    simp only [applyOp] at hm
    simpa [sigCount] using h hm
  | attrOp n =>
    intro hm
    by_cases hn : n ∈ normalAttrs
    · simp [applyOp, getattrFull, hn] at hm
      simpa [sigCount] using h hm
    · have hn2 : n ∉ mutatingAttrs := fun hx => hn (mutatingAttrs_subset_normal hx)
      simp [applyOp, getattrFull, getattrDyn, hn, hn2] at hm
      simpa [sigCount] using h hm
  | resetOp =>
    by_cases he : d.store.isEmpty
    · intro hm
      simp [applyOp, reset, he] at hm
      simpa [sigCount, he] using h hm
    · intro _; simp [sigCount, he]
  | enterOp f =>
    intro hm
    simp [applyOp, aenter] at hm
    simpa [sigCount] using h hm
  | exitOp ok =>
    intro hm
    by_cases hd : d.is_modified = true
    · by_cases hok : ok = true
      · exfalso
        simp [applyOp, aexitRun, hd, hok] at hm
      · simp only [sigCount, hd, hok]
        simpa [hok] using h hd
    · simp [applyOp, aexitRun, hd] at hm

theorem runOps_sig_inv (ops : List (Op α)) (d : SessionDict α) (m g : Nat)
    (h : d.is_modified = true → 0 < g) :
    (runOps d m g ops).1.is_modified = true → 0 < (runOps d m g ops).2.2 := by
  induction ops generalizing d m g with
  | nil => simpa [runOps] using h
  | cons op rest ih =>
    simp only [runOps]
    exact ih _ _ _ (runOps_sig_step d op g h)

/-- Concrete initial state for the lock layer: every task wants sid
"a", nothing acquired yet. -/
def lockSys0 : LockSys :=
  { tasks := fun _ => ⟨"a", Phase.idle⟩,
    registry := fun _ => none,
    lockedFlag := fun _ => true,
    nextLock := 0 }

/-- State after task 0 acquires (creating lock 0). -/
def lockSys1 : LockSys :=
  { tasks := updTask lockSys0.tasks 0 ⟨"a", Phase.crit⟩,
    registry := updReg lockSys0.registry "a" (some 0),
    lockedFlag := updFlag lockSys0.lockedFlag 0 true,
    nextLock := 1 }

/-- State after task 1 additionally suspends on lock 0. -/
def lockSys2 : LockSys :=
  { lockSys1 with
    tasks := updTask lockSys1.tasks 1 ⟨"a", Phase.waiting 0⟩ }

/-- State after task 0 then runs `LockKeeper.release`. -/
def lockSys3 : LockSys :=
  { lockSys2 with
    tasks := updTask lockSys2.tasks 0 ⟨"a", Phase.done⟩,
    registry := updReg lockSys2.registry "a" none }

/-- C1: for every session id and every interleaving of concurrent
callers of guarded scopes, no two scopes for the same id hold the
critical section at once: in every state reachable from an initial
state by `LockStep`, two tasks in phase `crit` with the same sid
coincide.  (A waiter is only ever granted through the wake rule, which
the invariant shows never fires; a fresh grant requires the registry
entry to be absent, which happens only after the current holder
releases.) -/
theorem lock_mutual_exclusion (s0 s : LockSys) (h0 : LockInit s0)
    (hr : Relation.ReflTransGen LockStep s0 s) : MutexProp s :=
  (lockInv_reach (lockInv_init s0 h0) hr).2.2

/-- Witness for C1: the mutual-exclusion theorem applied to the
concrete one-step reachable state `lockSys1`. -/
theorem lock_mutual_exclusion_witness : MutexProp lockSys1 :=
  lock_mutual_exclusion lockSys0 lockSys1
    ⟨fun _ => rfl, fun _ => rfl, fun _ => rfl⟩
    (Relation.ReflTransGen.single (LockStep.acquireCreate 0 rfl rfl))

/-- C3 (failing input): `LockKeeper.release` does not wake the blocked
waiter and removes the registry entry although a waiter exists.  In the
concrete three-step trace (task 0 acquires, task 1 suspends on the same
lock, task 0 releases), the registry entry for "a" is gone, task 1 is
still suspended, and task 1 remains suspended in every further
reachable state — `release` woke no one. -/
theorem release_orphans_waiter :
    Relation.ReflTransGen LockStep lockSys0 lockSys3 ∧
    (lockSys3.tasks 1).phase = Phase.waiting 0 ∧
    lockSys3.registry "a" = none ∧
    (∀ s2, Relation.ReflTransGen LockStep lockSys3 s2 →
      (s2.tasks 1).phase = Phase.waiting 0) := by
  refine ⟨?_, rfl, rfl, ?_⟩
  · refine Relation.ReflTransGen.head (LockStep.acquireCreate 0 rfl rfl) ?_
    refine Relation.ReflTransGen.head (LockStep.acquireWait 1 0 rfl rfl) ?_
    exact Relation.ReflTransGen.single (LockStep.release 0 rfl)
  · intro s2 hr
    exact (waiting_persists 1 0 hr ⟨fun l => by
      by_cases hl : l = 0
      · subst hl; rfl
      · simp [lockSys3, lockSys2, lockSys1, lockSys0, updFlag, hl], rfl⟩).2

/-- Witness for the reachability fact inside the C3 theorem, applied at
the trivial continuation of the final state. -/
theorem release_orphans_waiter_witness :
    (lockSys3.tasks 1).phase = Phase.waiting 0 :=
  release_orphans_waiter.2.2.2 lockSys3 Relation.ReflTransGen.refl

/-- C2 (counterexample): the claim that a fetch or store failure inside
a guarded scope still releases the lock exactly once is false on the
code.  If `fetch` raises during `__aenter__`, Python never calls
`__aexit__`, so zero releases happen and the lock entry stays in
`acquired_locks`; a subsequent scope for the same sid then blocks
forever.  Likewise a store failure during `__aexit__` skips the release.
All three facts are evaluated on concrete inputs. -/
theorem scope_error_leaks_lock_cex :
    runScope [] (initDict (α := Nat) "s") none (fun d => (d, false)) true
      = ScopeOutcome.raised [("s", true)] 0 ∧
    runScope [("s", true)] (initDict (α := Nat) "s") (some none)
      (fun d => (d, false)) true
      = ScopeOutcome.blocked ∧
    runScope [] (initDict (α := Nat) "s") (some none)
      (fun d => ((setitem [] d "k" 1).2, false)) false
      = ScopeOutcome.raised [("s", true)] 0 := by
  refine ⟨rfl, rfl, ?_⟩
  rfl

/-- C2 (amended): if the scope body raises after a successful entry
(lock granted and fetch returned), and the write-back at exit — when one
is due — succeeds, then the lock is released exactly once before the
error propagates and the registry no longer holds the sid, so a
subsequent acquirer is not blocked.  (A fetch failure during entry or a
store failure during exit instead leaks the lock, per the
counterexample.) -/
theorem body_raise_releases_lock (α : Type) (locks : LockMap)
    (d : SessionDict α) (fr : Option (List (String × α)))
    (body : SessionDict α → SessionDict α × Bool) (storeOk : Bool)
    (hfree : storeGet locks d.sid = none)
    (hraise : (body (aenter d fr).2).2 = true)
    (hstore : (body (aenter d fr).2).1.is_modified = true → storeOk = true) :
    runScope locks d (some fr) body storeOk =
      ScopeOutcome.raised
        (((d.sid, true) :: locks).filter (fun p => p.1 ≠ d.sid)) 1 ∧
    storeGet (((d.sid, true) :: locks).filter (fun p => p.1 ≠ d.sid)) d.sid
      = none := by
  constructor
  · by_cases hm : (body (aenter d fr).2).1.is_modified = true
    · simp [runScope, hfree, hraise, hm, hstore hm]
    · simp [runScope, hfree, hraise, hm]
  · exact storeGet_filter_self _ _

/-- Witness for the amended C2 theorem: a concrete raising body on an
empty registry. -/
theorem body_raise_releases_lock_witness :
    runScope [] (initDict (α := Nat) "s") (some none)
      (fun d => (d, true)) true
      = ScopeOutcome.raised
          ((("s", true) :: ([] : LockMap)).filter (fun p => p.1 ≠ "s")) 1 ∧
    storeGet ((("s", true) :: ([] : LockMap)).filter (fun p => p.1 ≠ "s")) "s"
      = none :=
  body_raise_releases_lock Nat [] (initDict "s") none (fun d => (d, true))
    true rfl rfl (fun _ => rfl)

/-- C4: entering a guarded scope with the dirty flag set emits the
distinct mix warning (`UNLOCKED_LOCKED_ACCESS_MIX_MSG`) and replaces the
in-memory store wholesale with the fetched payload (empty when absent),
irrespective of the previous store contents — unguarded writes made
before entry are not visible inside the scope. -/
theorem guarded_entry_discards_unguarded_writes (α : Type)
    (d : SessionDict α) (fetched : Option (List (String × α)))
    (h : d.is_modified = true) :
    (aenter d fetched).1 = [Warn.mixWarning] ∧
    (aenter d fetched).2.store = fetched.getD [] := by
  simp [aenter, h]

/-- Witness for C4: a dirty view with a pending unguarded write,
entered with a backend payload. -/
theorem guarded_entry_discards_unguarded_writes_witness :
    (aenter { initDict (α := Nat) "s" with
                store := [("x", 1)], is_modified := true }
        (some [("y", 2)])).1 = [Warn.mixWarning] ∧
    (aenter { initDict (α := Nat) "s" with
                store := [("x", 1)], is_modified := true }
        (some [("y", 2)])).2.store = (some [("y", 2)]).getD [] :=
  guarded_entry_discards_unguarded_writes Nat
    { initDict "s" with store := [("x", 1)], is_modified := true }
    (some [("y", 2)]) rfl

/-- C5 (counterexample): the claim that every guarded-scope exit calls
the release regardless of the dirty flag fails when the write-back
raises: on a dirty view whose backend store call fails, the exit trace
contains the store call but no release, and the dirty flag is never
reset — the exception aborts `__aexit__` before
`lock_keeper.release`. -/
theorem exit_store_failure_skips_release_cex :
    aexitRun { initDict (α := Nat) "s" with
                 store := [("k", 3)], is_modified := true } false
      = ([Action.storeA "s" [("k", 3)]], none) := rfl

/-- C5 (amended): on a guarded-scope exit whose write-back does not raise, if the
dirty flag is set then the backend store of the current payload happens
and the flag is reset; in all cases the lock release happens; and the
emitted trace places the write-back strictly before the release, so a
fetch of the next acquirer sees the completed write-back. -/
theorem guarded_exit_contract (α : Type) (d : SessionDict α)
    (storeOk : Bool) (h : storeOk = true) :
    (d.is_modified = true →
      aexitRun d storeOk =
        ([Action.storeA d.sid d.store, Action.releaseA d.sid],
         some { d with is_modified := false })) ∧
    (d.is_modified = false →
      aexitRun d storeOk = ([Action.releaseA d.sid], some d)) := by
  subst h
  constructor <;> intro hm <;> simp [aexitRun, hm]

/-- Witness for C5: a dirty view and a clean view, both exiting with a
succeeding backend. -/
theorem guarded_exit_contract_witness :
    aexitRun { initDict (α := Nat) "s" with
                 store := [("k", 3)], is_modified := true } true
      = ([Action.storeA "s" [("k", 3)], Action.releaseA "s"],
         some { initDict (α := Nat) "s" with
                  store := [("k", 3)], is_modified := false }) ∧
    aexitRun (initDict (α := Nat) "s") true
      = ([Action.releaseA "s"], some (initDict "s")) :=
  ⟨(guarded_exit_contract Nat
      { initDict "s" with store := [("k", 3)], is_modified := true }
      true rfl).1 rfl,
   (guarded_exit_contract Nat (initDict "s") true rfl).2 rfl⟩

/-- C6 (counterexample): the invariant "dirty implies a payload mutation
since the last write-back or load" fails on the code at two concrete
runs.  First, an unguarded set followed by a guarded entry: the entry
loads from the backend but `__aenter__` does not reset `is_modified`,
so the flag is still true with zero payload mutations since the load.
Second, a delete of a missing key: `__delitem__` sets `is_modified`
before the `del` raises `KeyError`, so the flag is true although no
payload mutation ever happened. -/
theorem dirty_without_mutation_cex :
    ((runOps (initDict (α := Nat) "s") 0 0
        [Op.setOp "k" 1, Op.enterOp none]).1.is_modified = true ∧
     (runOps (initDict (α := Nat) "s") 0 0
        [Op.setOp "k" 1, Op.enterOp none]).2.1 = 0) ∧
    ((runOps (initDict (α := Nat) "s") 0 0
        [Op.delOp "x"]).1.is_modified = true ∧
     (runOps (initDict (α := Nat) "s") 0 0 [Op.delOp "x"]).2.1 = 0) := by
  refine ⟨⟨rfl, rfl⟩, ⟨rfl, rfl⟩⟩

/-- C6 (amended): whenever the dirty flag of a view is true, at least
one `is_modified`-signalling operation — an item set, an item delete
attempt (including one that raises `KeyError`), or a non-empty reset —
occurred since construction or since the last successful write-back; a
backend load at guarded entry does not reset the flag. -/
theorem dirty_flag_signal_invariant (α : Type) (sid : String)
    (ops : List (Op α))
    (h : (runOps (initDict sid) 0 0 ops).1.is_modified = true) :
    0 < (runOps (initDict sid) 0 0 ops).2.2 :=
  runOps_sig_inv ops (initDict sid) 0 0 (fun hfalse => by cases hfalse) h

/-- Witness for the amended C6 theorem at a concrete run. -/
theorem dirty_flag_signal_invariant_witness :
    0 < (runOps (initDict (α := Nat) "s") 0 0 [Op.setOp "a" 1]).2.2 :=
  dirty_flag_signal_invariant Nat "s" [Op.setOp "a" 1] rfl

/-- C7: keys are normalised to lower case by `__getitem__`,
`__setitem__` and `__delitem__`: after setting `k` to `v`, reading any
case variant `w` of `k` (same lower-cased form) returns `v`, and
deleting any case variant succeeds and removes the binding. -/
theorem keys_case_insensitive (α : Type) (locks : LockMap)
    (d : SessionDict α) (k w : String) (v : α)
    (h : lowerKey w = lowerKey k) :
    (getitem locks (setitem locks d k v).2 w).2 = some v ∧
    (delitem locks (setitem locks d k v).2 w).2.2 = true ∧
    storeGet ((delitem locks (setitem locks d k v).2 w).2.1).store (lowerKey k)
      = none := by
  refine ⟨?_, ?_, ?_⟩
  · simp [getitem, setitem, h, storeGet_storeSet_self]
  · simp [delitem, setitem, h, storeGet_storeSet_self]
  · simp [delitem, setitem, h, storeGet_storeSet_self, storeGet_storeDel_self]

/-- Witness for C7 with distinct case variants of the same key. -/
theorem keys_case_insensitive_witness :
    (getitem [] (setitem [] (initDict (α := Nat) "s") "Foo" 7).2 "fOO").2
      = some 7 ∧
    (delitem [] (setitem [] (initDict (α := Nat) "s") "Foo" 7).2 "fOO").2.2
      = true ∧
    storeGet ((delitem [] (setitem [] (initDict (α := Nat) "s") "Foo" 7).2
        "fOO").2.1).store (lowerKey "Foo") = none :=
  keys_case_insensitive Nat [] (initDict "s") "Foo" "fOO" 7 rfl

/-- C8: with the warn-on-unguarded-access option at its default
(`warn_lock = True`), every unguarded read, write and delete on a view
that is not locked emits exactly the `UNLOCKED_WARNING_MSG`
`RuntimeWarning`, and the warning does not alter the data outcome: each
access computes the same result as the same access with warnings
disabled. -/
theorem unguarded_access_warns (α : Type) (locks : LockMap)
    (d : SessionDict α) (k : String) (v : α)
    (h1 : is_locked locks d = false) (h2 : d.warn_lock = true) :
    (getitem locks d k).1 = [Warn.unlockedWarning] ∧
    (getitem locks d k).2 = storeGet d.store (lowerKey k) ∧
    (getitem locks d k).2
      = (getitem locks { d with warn_lock := false } k).2 ∧
    (setitem locks d k v).1 = [Warn.unlockedWarning] ∧
    (setitem locks d k v).2.store
      = (setitem locks { d with warn_lock := false } k v).2.store ∧
    (delitem locks d k).1 = [Warn.unlockedWarning] ∧
    (delitem locks d k).2.1.store
      = (delitem locks { d with warn_lock := false } k).2.1.store := by
  refine ⟨?_, rfl, rfl, ?_, rfl, ?_, rfl⟩ <;>
    simp [getitem, setitem, delitem, warn_if_not_locked, h1, h2]

/-- Witness for C8: an unlocked fresh view with warnings at the
default. -/
theorem unguarded_access_warns_witness :
    (getitem [] (initDict (α := Nat) "s") "k").1 = [Warn.unlockedWarning] ∧
    (getitem [] (initDict (α := Nat) "s") "k").2
      = storeGet (initDict (α := Nat) "s").store (lowerKey "k") ∧
    (getitem [] (initDict (α := Nat) "s") "k").2
      = (getitem [] { initDict (α := Nat) "s" with warn_lock := false } "k").2 ∧
    (setitem [] (initDict (α := Nat) "s") "k" 5).1 = [Warn.unlockedWarning] ∧
    (setitem [] (initDict (α := Nat) "s") "k" 5).2.store
      = (setitem [] { initDict (α := Nat) "s" with warn_lock := false }
          "k" 5).2.store ∧
    (delitem [] (initDict (α := Nat) "s") "k").1 = [Warn.unlockedWarning] ∧
    (delitem [] (initDict (α := Nat) "s") "k").2.1.store
      = (delitem [] { initDict (α := Nat) "s" with
          warn_lock := false } "k").2.1.store :=
  unguarded_access_warns Nat [] (initDict "s") "k" 5 rfl rfl

/-- C9: `AsyncPG.store` with ttl `T` at time `t0` records the absolute
expiry `t0 + T` together with the encoded payload, and `AsyncPG.fetch`
returns the decoded payload at any time strictly before `t0 + T` and
reports absence at any time strictly after `t0 + T` (given that the
configured encoder/decoder pair round-trips). -/
theorem ttl_store_fetch (π ε : Type) (enc : π → ε) (dec : ε → π)
    (hround : ∀ v, dec (enc v) = v) (st : PGTable ε)
    (t0 T t : Nat) (sid : String) (v : π) :
    storeGet (pgStore enc st t0 sid T (some v)).rows sid
      = some (t0 + T, enc v) ∧
    (t < t0 + T →
      pgFetch dec (pgStore enc st t0 sid T (some v)) t sid = some v) ∧
    (t0 + T < t →
      pgFetch dec (pgStore enc st t0 sid T (some v)) t sid = none) := by
  refine ⟨?_, ?_, ?_⟩
  · simp [pgStore, storeGet]
  · intro ht
    simp [pgStore, pgFetch, storeGet, ht, hround]
  · intro ht
    have hnot : ¬ t < t0 + T := by omega
    simp [pgStore, pgFetch, storeGet, hnot]

/-- Witness for C9 with the identity codec: store at time 10 with ttl
60, fetch at times 50 and 71. -/
theorem ttl_store_fetch_witness :
    storeGet (pgStore (fun (v : Nat) => v) (⟨[]⟩ : PGTable Nat) 10 "abc" 60
        (some 5)).rows "abc" = some (10 + 60, 5) ∧
    pgFetch (fun v => v) (pgStore (fun (v : Nat) => v) (⟨[]⟩ : PGTable Nat)
      10 "abc" 60 (some 5)) 50 "abc" = some 5 ∧
    pgFetch (fun v => v) (pgStore (fun (v : Nat) => v) (⟨[]⟩ : PGTable Nat)
      10 "abc" 60 (some 5)) 71 "abc" = none :=
  ⟨(ttl_store_fetch Nat Nat (fun v => v) (fun v => v) (fun _ => rfl)
      ⟨[]⟩ 10 60 50 "abc" 5).1,
   (ttl_store_fetch Nat Nat (fun v => v) (fun v => v) (fun _ => rfl)
      ⟨[]⟩ 10 60 50 "abc" 5).2.1 (by decide),
   (ttl_store_fetch Nat Nat (fun v => v) (fun v => v) (fun _ => rfl)
      ⟨[]⟩ 10 60 71 "abc" 5).2.2 (by decide)⟩

/-- C10 (counterexample): looking up the attribute `pop` on a fresh
view does not set the dirty flag.  `SessionDict` subclasses
`collections.abc.MutableMapping`, whose concrete mixin method `pop` is
found by normal attribute lookup, so `__getattr__` never runs for that
name: the lookup emits no warning, returns the state unchanged, and
`is_modified` stays false — refuting the claim that the mere lookup
sets it to true. -/
theorem mixin_lookup_not_dirty_cex :
    getattrFull [] (initDict (α := Nat) "s") "pop" = ([], some (initDict "s")) ∧
    (initDict (α := Nat) "s").is_modified = false := by
  refine ⟨rfl, rfl⟩

/-- C10 (amended): looking up any of the five names pop, popitem,
update, clear, setdefault on a SessionView resolves through normal
attribute lookup to the inherited `MutableMapping` mixin method:
`__getattr__` never runs for these names, no warning is emitted, and
the state — in particular the dirty flag — is unchanged at
attribute-access time (the flag is set only when the returned method,
once called, writes through the mapping interface); looking up a name
outside the attribute namespace of the view raises `AttributeError`
and leaves the state unchanged. -/
theorem attr_lookup_no_dirty (α : Type) (locks : LockMap)
    (d : SessionDict α) (name : String) :
    (name ∈ mutatingAttrs → getattrFull locks d name = ([], some d)) ∧
    (name ∉ normalAttrs → getattrFull locks d name = ([], none)) := by
  constructor
  · intro h
    simp [getattrFull, mutatingAttrs_subset_normal h]
  · intro h
    have h2 : name ∉ mutatingAttrs := fun hx => h (mutatingAttrs_subset_normal hx)
    simp [getattrFull, getattrDyn, h, h2]

/-- Witness for the amended C10 theorem: the name "pop" resolves to the
mixin method leaving the state untouched; the name "zzz" raises and
changes nothing. -/
theorem attr_lookup_no_dirty_witness :
    getattrFull [] (initDict (α := Nat) "s") "pop" = ([], some (initDict "s")) ∧
    getattrFull [] (initDict (α := Nat) "s") "zzz" = ([], none) :=
  ⟨(attr_lookup_no_dirty Nat [] (initDict "s") "pop").1 (by decide),
   (attr_lookup_no_dirty Nat [] (initDict "s") "zzz").2 (by decide)⟩

end SanicCookies
